import Mathlib

/-!
Shallow embedding of the RespiroSync core engine
(src/core/respirosync_core.cpp and src/core/respirosync_core.h).

Float values are modelled as rationals (exact real semantics of the decimal
literals in the source).  The two transcendental library calls the source
makes (std::atan2 and std::sqrt) are abstracted as an explicit parameter
`F : RealFns`; every theorem quantifies over `F`, and concrete witnesses
instantiate it.  uint64_t timestamps are modelled as `Nat` together with the
explicit wrapping subtraction `u64sub` (computing mod 2^64 exactly where the
C++ subtraction wraps).
-/

namespace RespiroSync

/-- Abstract interpretation of the two transcendental float functions used by
the source (`std::atan2`, `std::sqrt`). -/
structure RealFns where
  atan2 : ℚ → ℚ → ℚ
  sqrt : ℚ → ℚ

/-- uint64_t subtraction `a - b`, wrapping modulo 2^64 (as in the C++ source,
where both operands are uint64_t values below 2^64). -/
def u64sub (a b : ℕ) : ℕ := (a + 2 ^ 64 - b) % 2 ^ 64

/-- SleepStage enum from respirosync_core.h. -/
inductive SleepStage where
  | AWAKE
  | LIGHT_SLEEP
  | DEEP_SLEEP
  | REM_SLEEP
  | UNKNOWN
deriving DecidableEq, Repr

/-- Integer value of each SleepStage enumerator (AWAKE = 0 .. UNKNOWN = 4). -/
def SleepStage.code : SleepStage → ℤ
  | .AWAKE => 0
  | .LIGHT_SLEEP => 1
  | .DEEP_SLEEP => 2
  | .REM_SLEEP => 3
  | .UNKNOWN => 4

/-- SignalQuality enum from respirosync_core.h. -/
inductive SignalQuality where
  | SIGNAL_QUALITY_EXCELLENT
  | SIGNAL_QUALITY_GOOD
  | SIGNAL_QUALITY_FAIR
  | SIGNAL_QUALITY_POOR
  | SIGNAL_QUALITY_UNKNOWN
deriving DecidableEq, Repr

/-- Integer value of each SignalQuality enumerator (EXCELLENT = 0 .. UNKNOWN = 4). -/
def SignalQuality.code : SignalQuality → ℤ
  | .SIGNAL_QUALITY_EXCELLENT => 0
  | .SIGNAL_QUALITY_GOOD => 1
  | .SIGNAL_QUALITY_FAIR => 2
  | .SIGNAL_QUALITY_POOR => 3
  | .SIGNAL_QUALITY_UNKNOWN => 4

/-- SleepMetrics output record from respirosync_core.h. -/
structure SleepMetrics where
  current_stage : SleepStage
  confidence : ℚ
  breathing_rate_bpm : ℚ
  breathing_regularity : ℚ
  movement_intensity : ℚ
  breath_cycles_detected : ℕ
  possible_apnea : ℕ
  signal_quality : SignalQuality
  signal_noise_ratio : ℚ
  instability_score : ℚ
  instability_detected : ℕ
deriving DecidableEq, Repr

/-- SensorSample (respirosync_core.cpp, struct SensorSample). -/
structure SensorSample where
  x : ℚ
  y : ℚ
  z : ℚ
  timestamp_ms : ℕ
deriving DecidableEq, Repr

/-- BreathCycle (respirosync_core.cpp, struct BreathCycle).
`duration_ms` is a float in the source, hence a rational here. -/
structure BreathCycle where
  timestamp_ms : ℕ
  amplitude : ℚ
  duration_ms : ℚ
deriving DecidableEq, Repr

/-- ButterworthFilter state: the four IIR delay registers. -/
structure ButterworthFilter where
  x1 : ℚ
  x2 : ℚ
  y1 : ℚ
  y2 : ℚ
deriving DecidableEq, Repr

/-- Filter coefficient b0 = 0.0201f. -/
def filterB0 : ℚ := 201 / 10000

/-- Filter coefficient b1 = 0.0f. -/
def filterB1 : ℚ := 0

/-- Filter coefficient b2 = -0.0201f. -/
def filterB2 : ℚ := -(201 / 10000)

/-- Filter coefficient a1 = -1.5610f. -/
def filterA1 : ℚ := -(15610 / 10000)

/-- Filter coefficient a2 = 0.6414f. -/
def filterA2 : ℚ := 6414 / 10000

/-- Constructor / reset state of the Butterworth filter: all registers zero. -/
def ButterworthFilter.reset : ButterworthFilter := ⟨0, 0, 0, 0⟩

/-- ButterworthFilter::process: one IIR step, returning the output and the
advanced filter state. -/
def ButterworthFilter.process (f : ButterworthFilter) (input : ℚ) :
    ℚ × ButterworthFilter :=
  let output := filterB0 * input + filterB1 * f.x1 + filterB2 * f.x2
      - filterA1 * f.y1 - filterA2 * f.y2
  (output, ⟨input, f.x1, output, f.y1⟩)

/-! ## Phase-memory operator (PhaseMemoryOperator) -/

/-- The float literal 3.14159265f used by the source for pi. -/
def piF : ℚ := 314159265 / 100000000

/-- DEFAULT_ALPHA = 2.0f. -/
def DEFAULT_ALPHA : ℚ := 2

/-- MEMORY_SAMPLES = 150. -/
def MEMORY_SAMPLES : ℕ := 150

/-- BASELINE_SAMPLES = 250. -/
def BASELINE_SAMPLES : ℕ := 250

/-- OMEGA_0 = 2.0f * 3.14159265f * 0.3f. -/
def OMEGA_0 : ℚ := 2 * piF * (3 / 10)

/-- DT = 1.0f / 50.0f. -/
def DT : ℚ := 1 / 50

/-- Number of iterations performed by the loop `while (d > pi) d -= 2*pi`
starting from `d`.  Used as an exact fuel bound for the loop embedding. -/
def wrapDownSteps (d : ℚ) : ℕ :=
  if d ≤ piF then 0 else (Int.ceil ((d - piF) / (2 * piF))).toNat

/-- The loop `while (d > pi) d -= 2*pi`, run for at most `n` iterations. -/
def wrapDownGo : ℕ → ℚ → ℚ
  | 0, d => d
  | n + 1, d => if piF < d then wrapDownGo n (d - 2 * piF) else d

/-- Number of iterations performed by the loop `while (d < -pi) d += 2*pi`
starting from `d`. -/
def wrapUpSteps (d : ℚ) : ℕ :=
  if -piF ≤ d then 0 else (Int.ceil ((-piF - d) / (2 * piF))).toNat

/-- The loop `while (d < -pi) d += 2*pi`, run for at most `n` iterations. -/
def wrapUpGo : ℕ → ℚ → ℚ
  | 0, d => d
  | n + 1, d => if d < -piF then wrapUpGo n (d + 2 * piF) else d

/-- PhaseMemoryOperator::unwrapDelta: wrap a phase difference into (-pi, pi]
by the source's two successive while loops (each given its exact iteration
count as fuel). -/
def unwrapDelta (d : ℚ) : ℚ :=
  let d1 := wrapDownGo (wrapDownSteps d) d
  wrapUpGo (wrapUpSteps d1) d1

/-- PhaseMemoryOperator state. -/
structure PhaseMemoryOperator where
  prev_x : ℚ
  prev_theta : ℚ
  initialized : Bool
  omega_buf : List ℚ
  omega_idx : ℕ
  omega_sum : ℚ
  omega_count : ℕ
  baseline_buf : List ℚ
  baseline_count : ℕ
  baseline_ready : Bool
  sigma_omega : ℚ
  delta_phi : ℚ
deriving DecidableEq, Repr

/-- PhaseMemoryOperator::reset (also its constructor). -/
def PhaseMemoryOperator.reset : PhaseMemoryOperator where
  prev_x := 0
  prev_theta := 0
  initialized := false
  omega_buf := List.replicate MEMORY_SAMPLES 0
  omega_idx := 0
  omega_sum := 0
  omega_count := 0
  baseline_buf := List.replicate BASELINE_SAMPLES 0
  baseline_count := 0
  baseline_ready := false
  sigma_omega := 1
  delta_phi := 0

/-- PhaseMemoryOperator::update: feed one bandpass-filtered sample.
Returns the advanced operator state (the C++ return value is the new
`delta_phi` field). -/
def PhaseMemoryOperator.update (F : RealFns) (s : PhaseMemoryOperator)
    (x : ℚ) : PhaseMemoryOperator :=
  if s.initialized = false then
    { s with prev_x := x, prev_theta := 0, initialized := true }
  else
    let dx := x - s.prev_x
    let h_x := -dx / (OMEGA_0 * DT)
    let theta := F.atan2 h_x x
    let d_theta := unwrapDelta (theta - s.prev_theta)
    let omega := d_theta / DT
    let outgoing := s.omega_buf.getD s.omega_idx 0
    let omega_buf := s.omega_buf.set s.omega_idx omega
    let omega_sum := s.omega_sum + (omega - outgoing)
    let omega_idx := (s.omega_idx + 1) % MEMORY_SAMPLES
    let omega_count :=
      if s.omega_count < MEMORY_SAMPLES then s.omega_count + 1 else s.omega_count
    let omega_mean := if 0 < omega_count then omega_sum / omega_count else omega
    let delta_phi := |omega - omega_mean|
    let base : PhaseMemoryOperator :=
      { s with prev_x := x, prev_theta := theta,
               omega_buf, omega_sum, omega_idx, omega_count, delta_phi }
    if s.baseline_ready = false then
      let baseline_buf := s.baseline_buf.set s.baseline_count omega
      let baseline_count := s.baseline_count + 1
      if BASELINE_SAMPLES ≤ baseline_count then
        let mean := (baseline_buf.foldl (· + ·) 0) / (BASELINE_SAMPLES : ℚ)
        let var :=
          (baseline_buf.foldl (fun acc v => acc + (v - mean) * (v - mean)) 0)
            / (BASELINE_SAMPLES : ℚ)
        let sigma0 := F.sqrt var
        let sigma_omega := if sigma0 < 1 / 10000 then 1 / 10000 else sigma0
        { base with baseline_buf, baseline_count, baseline_ready := true,
                    sigma_omega }
      else
        { base with baseline_buf, baseline_count }
    else
      base

/-- PhaseMemoryOperator::instabilityScore. -/
def PhaseMemoryOperator.instabilityScore (s : PhaseMemoryOperator) : ℚ :=
  s.delta_phi

/-- PhaseMemoryOperator::instabilityDetected (alpha defaults to
DEFAULT_ALPHA at the call site in the engine). -/
def PhaseMemoryOperator.instabilityDetected (s : PhaseMemoryOperator)
    (alpha : ℚ) : Bool :=
  s.baseline_ready && decide (alpha * s.sigma_omega < s.delta_phi)

/-- PhaseMemoryOperator::baselineSigma. -/
def PhaseMemoryOperator.baselineSigma (s : PhaseMemoryOperator) : ℚ :=
  s.sigma_omega

/-! ## RespiroEngine -/

/-- BUFFER_SIZE = 256. -/
def BUFFER_SIZE : ℕ := 256

/-- PEAK_THRESHOLD_MULTIPLIER = 0.6f. -/
def PEAK_THRESHOLD_MULTIPLIER : ℚ := 6 / 10

/-- APNEA_THRESHOLD_MS = 10000. -/
def APNEA_THRESHOLD_MS : ℕ := 10000

/-- EPSILON = 1e-6f. -/
def EPSILON : ℚ := 1 / 1000000

/-- MIN_STDDEV = 1e-6f. -/
def MIN_STDDEV : ℚ := 1 / 1000000

/-- RespiroEngine state (all member fields of the C++ class). -/
structure RespiroEngine where
  gyro_buffer : List SensorSample
  accel_buffer : List SensorSample
  breath_history : List BreathCycle
  accel_magnitude_buffer : List ℚ
  breathing_filter : ButterworthFilter
  breathing_signal_buffer : List ℚ
  breathing_signal_sum : ℚ
  breathing_signal_sum_squares : ℚ
  buffer_index : ℕ
  phase_memory : PhaseMemoryOperator
  last_peak_time : ℕ
  last_peak_value : ℚ
  in_peak : Bool
  peak_threshold : ℚ
  current_bpm : ℚ
  current_stage : SleepStage
  movement_variance : ℚ
  gravity_estimate : ℚ
  session_start_time : ℕ
  last_breath_time : ℕ
  accel_magnitude_sum : ℚ
  accel_magnitude_sum_squares : ℚ
deriving DecidableEq, Repr

/-- RespiroEngine constructor. -/
def RespiroEngine.init : RespiroEngine where
  gyro_buffer := []
  accel_buffer := []
  breath_history := []
  accel_magnitude_buffer := []
  breathing_filter := ButterworthFilter.reset
  breathing_signal_buffer := List.replicate BUFFER_SIZE 0
  breathing_signal_sum := 0
  breathing_signal_sum_squares := 0
  buffer_index := 0
  phase_memory := PhaseMemoryOperator.reset
  last_peak_time := 0
  last_peak_value := 0
  in_peak := false
  peak_threshold := 1 / 10
  current_bpm := 0
  current_stage := .UNKNOWN
  movement_variance := 0
  gravity_estimate := 981 / 100
  session_start_time := 0
  last_breath_time := 0
  accel_magnitude_sum := 0
  accel_magnitude_sum_squares := 0

/-- Helper magnitude(s): std::sqrt(x*x + y*y + z*z). -/
def magnitude (F : RealFns) (s : SensorSample) : ℚ :=
  F.sqrt (s.x * s.x + s.y * s.y + s.z * s.z)

/-- Helper removeGravity: updates the gravity estimate by the exponential
smoother with alpha = 0.8f and returns the residual along with the new
estimate. -/
def removeGravity (gravity_estimate m : ℚ) : ℚ × ℚ :=
  let g := (8 / 10) * gravity_estimate + (1 - 8 / 10) * m
  (m - g, g)

/-- The eviction loop of feedGyroscope / feedAccelerometer on a sample deque:
pop from the front while the front sample is more than `window` ms older
(in wrapping uint64 arithmetic) than the ingested timestamp. -/
def trimSamples (timestamp_ms window : ℕ) :
    List SensorSample → List SensorSample
  | [] => []
  | s :: rest =>
    if window < u64sub timestamp_ms s.timestamp_ms then
      trimSamples timestamp_ms window rest
    else s :: rest

/-- The joint eviction loop of feedAccelerometer: pops the accel deque and,
in lockstep, the magnitude deque while maintaining the magnitude sum and
sum of squares.  Returns (accel buffer, magnitude buffer, sum, sum sq). -/
def trimAccel (timestamp_ms : ℕ) :
    List SensorSample → List ℚ → ℚ → ℚ →
      List SensorSample × List ℚ × ℚ × ℚ
  | [], mags, msum, msq => ([], mags, msum, msq)
  | a :: rest, mags, msum, msq =>
    if 5000 < u64sub timestamp_ms a.timestamp_ms then
      match mags with
      | [] => trimAccel timestamp_ms rest [] msum msq
      | m :: mrest =>
        trimAccel timestamp_ms rest mrest (msum - m) (msq - m * m)
    else (a :: rest, mags, msum, msq)

/-- The eviction loop after a breath-cycle append: pop breath cycles from
the front while more than 60000 ms older than the new cycle's timestamp. -/
def trimBreaths (timestamp_ms : ℕ) : List BreathCycle → List BreathCycle
  | [] => []
  | c :: rest =>
    if 60000 < u64sub timestamp_ms c.timestamp_ms then
      trimBreaths timestamp_ms rest
    else c :: rest

/-- The adaptive-threshold statistics computed by detectBreathingPeaks after
inserting `signal` into the 256-slot ring: (new sum, new sum of squares,
validated stddev, peak threshold). -/
def peakStats (F : RealFns) (e : RespiroEngine) (signal : ℚ) :
    ℚ × ℚ × ℚ × ℚ :=
  let idx := if e.buffer_index < BUFFER_SIZE then e.buffer_index else 0
  let outgoing := e.breathing_signal_buffer.getD idx 0
  let bsum := e.breathing_signal_sum + (signal - outgoing)
  let bsq := e.breathing_signal_sum_squares
      + (signal * signal - outgoing * outgoing)
  let mean := bsum / (BUFFER_SIZE : ℚ)
  let variance := bsq / (BUFFER_SIZE : ℚ) - mean * mean
  let stddev0 := F.sqrt (max 0 variance)
  let stddev := max MIN_STDDEV stddev0
  (bsum, bsq, stddev, mean + stddev * PEAK_THRESHOLD_MULTIPLIER)

/-- RespiroEngine::detectBreathingPeaks. -/
def detectBreathingPeaks (F : RealFns) (e : RespiroEngine) (signal : ℚ)
    (timestamp : ℕ) : RespiroEngine :=
  let idx := if e.buffer_index < BUFFER_SIZE then e.buffer_index else 0
  let stats := peakStats F e signal
  let stddev := stats.2.2.1
  let threshold := stats.2.2.2
  let e1 : RespiroEngine :=
    { e with
      breathing_signal_buffer := e.breathing_signal_buffer.set idx signal
      breathing_signal_sum := stats.1
      breathing_signal_sum_squares := stats.2.1
      buffer_index := (idx + 1) % BUFFER_SIZE
      peak_threshold := threshold }
  if e.in_peak = false ∧ threshold < signal then
    let e2 : RespiroEngine :=
      if 0 < e.last_peak_time ∧ e.last_peak_time ≤ timestamp then
        let duration := timestamp - e.last_peak_time
        if 500 < duration ∧ duration < 6000 then
          let cycle : BreathCycle :=
            ⟨timestamp, signal / stddev, (duration : ℚ)⟩
          { e1 with
            breath_history :=
              trimBreaths timestamp (e.breath_history ++ [cycle])
            last_breath_time := timestamp }
        else e1
      else e1
    { e2 with in_peak := true, last_peak_time := timestamp,
              last_peak_value := signal }
  else if e.in_peak = true ∧
      signal < threshold * (8 / 10) - EPSILON then
    { e1 with in_peak := false }
  else e1

/-- RespiroEngine::calculateBreathingRate (reads only the breath history). -/
def calculateBreathingRate (history : List BreathCycle) : ℚ :=
  if history.length < 3 then 0
  else
    match history.getLast? with
    | none => 0
    | some newest =>
      let now := newest.timestamp_ms
      let recent_durations :=
        (history.reverse.takeWhile fun c =>
          decide (c.timestamp_ms ≤ now) &&
          decide (u64sub now c.timestamp_ms ≤ 30000)).map
          (fun c => c.duration_ms)
      if recent_durations.isEmpty then 0
      else
        let avg := (recent_durations.foldl (· + ·) 0)
            / (recent_durations.length : ℚ)
        if avg < EPSILON then 0 else 60000 / avg

/-- RespiroEngine::calculateBreathingRegularity. -/
def calculateBreathingRegularity (F : RealFns)
    (history : List BreathCycle) : ℚ :=
  if history.length < 5 then 0
  else
    let durations := history.map (fun c => c.duration_ms)
    let mean := (durations.foldl (· + ·) 0) / (durations.length : ℚ)
    let variance :=
      (durations.foldl (fun acc d => acc + (d - mean) * (d - mean)) 0)
        / (durations.length : ℚ)
    if mean < EPSILON then 0
    else
      let cv := F.sqrt variance / mean
      max 0 (min 1 (1 - cv))

/-- RespiroEngine::assessSignalQuality. -/
def assessSignalQuality (snr : ℚ) (sample_count : ℕ)
    (regularity : ℚ) : SignalQuality :=
  if sample_count < 5 then .SIGNAL_QUALITY_UNKNOWN
  else if 5 < snr ∧ 7 / 10 < regularity ∧ 20 ≤ sample_count then
    .SIGNAL_QUALITY_EXCELLENT
  else if 3 < snr ∧ 1 / 2 < regularity ∧ 10 ≤ sample_count then
    .SIGNAL_QUALITY_GOOD
  else if 3 / 2 < snr ∧ 5 ≤ sample_count then .SIGNAL_QUALITY_FAIR
  else .SIGNAL_QUALITY_POOR

/-- RespiroEngine::calculateSNR. -/
def calculateSNR (F : RealFns) (history : List BreathCycle) : ℚ :=
  if history.length < 3 then 0
  else
    let amplitudes := history.map (fun c => c.amplitude)
    let mean_amplitude :=
      (amplitudes.foldl (· + ·) 0) / (amplitudes.length : ℚ)
    let variance :=
      (amplitudes.foldl
        (fun acc a => acc + (a - mean_amplitude) * (a - mean_amplitude)) 0)
        / (amplitudes.length : ℚ)
    let noise := F.sqrt variance
    if noise < EPSILON then 0 else mean_amplitude / noise

/-- RespiroEngine::classifySleepStage. -/
def classifySleepStage (movement_intensity breathing_regularity : ℚ)
    (sample_count : ℕ) : SleepStage :=
  if sample_count < 5 then .UNKNOWN
  else if 4 / 10 < movement_intensity then .AWAKE
  else if movement_intensity < 5 / 100 ∧ 85 / 100 < breathing_regularity then
    .DEEP_SLEEP
  else if 15 / 100 < movement_intensity ∧ movement_intensity < 35 / 100 then
    .REM_SLEEP
  else .LIGHT_SLEEP

/-- RespiroEngine::startSession. -/
def RespiroEngine.startSession (e : RespiroEngine) (timestamp_ms : ℕ) :
    RespiroEngine :=
  { e with
    session_start_time := timestamp_ms
    breath_history := []
    breathing_filter := ButterworthFilter.reset
    phase_memory := PhaseMemoryOperator.reset
    buffer_index := 0
    current_stage := .UNKNOWN
    current_bpm := 0
    movement_variance := 0
    gravity_estimate := 981 / 100
    last_peak_time := 0
    last_peak_value := 0
    last_breath_time := 0
    in_peak := false
    peak_threshold := 1 / 10
    accel_magnitude_sum := 0
    accel_magnitude_sum_squares := 0
    accel_magnitude_buffer := []
    breathing_signal_buffer := List.replicate BUFFER_SIZE 0
    breathing_signal_sum := 0
    breathing_signal_sum_squares := 0 }

/-- RespiroEngine::feedGyroscope. -/
def RespiroEngine.feedGyroscope (e : RespiroEngine) (x y z : ℚ)
    (timestamp_ms : ℕ) : RespiroEngine :=
  let sample : SensorSample := ⟨x, y, z, timestamp_ms⟩
  { e with
    gyro_buffer := trimSamples timestamp_ms 5000 (e.gyro_buffer ++ [sample]) }

/-- RespiroEngine::feedAccelerometer: the full per-sample pipeline. -/
def RespiroEngine.feedAccelerometer (F : RealFns) (e : RespiroEngine)
    (x y z : ℚ) (timestamp_ms : ℕ) : RespiroEngine :=
  let sample : SensorSample := ⟨x, y, z, timestamp_ms⟩
  let accel_magnitude := magnitude F sample
  let trimmed := trimAccel timestamp_ms (e.accel_buffer ++ [sample])
      (e.accel_magnitude_buffer ++ [accel_magnitude])
      (e.accel_magnitude_sum + accel_magnitude)
      (e.accel_magnitude_sum_squares + accel_magnitude * accel_magnitude)
  let e1 : RespiroEngine :=
    { e with
      accel_buffer := trimmed.1
      accel_magnitude_buffer := trimmed.2.1
      accel_magnitude_sum := trimmed.2.2.1
      accel_magnitude_sum_squares := trimmed.2.2.2 }
  let rg := removeGravity e1.gravity_estimate accel_magnitude
  let e2 : RespiroEngine := { e1 with gravity_estimate := rg.2 }
  let chest_motion :=
    match e2.gyro_buffer.getLast? with
    | some gyro_sample => rg.1 + magnitude F gyro_sample * (1 / 10)
    | none => rg.1
  let fp := e2.breathing_filter.process chest_motion
  let breathing_signal := fp.1
  let e3 : RespiroEngine := { e2 with breathing_filter := fp.2 }
  let e4 : RespiroEngine :=
    { e3 with
      phase_memory := e3.phase_memory.update F breathing_signal }
  let e5 := detectBreathingPeaks F e4 breathing_signal timestamp_ms
  let e6 : RespiroEngine :=
    { e5 with current_bpm := calculateBreathingRate e5.breath_history }
  let movement_variance :=
    if 10 < e6.accel_magnitude_buffer.length then
      let n : ℚ := (e6.accel_magnitude_buffer.length : ℚ)
      let mean_mag := e6.accel_magnitude_sum / n
      max 0 (e6.accel_magnitude_sum_squares / n - mean_mag * mean_mag)
    else 0
  { e6 with movement_variance }

/-- RespiroEngine::getCurrentMetrics (reads the state; mutates nothing). -/
def RespiroEngine.getCurrentMetrics (F : RealFns) (e : RespiroEngine)
    (timestamp_ms : ℕ) : SleepMetrics :=
  let breathing_regularity := calculateBreathingRegularity F e.breath_history
  let movement_intensity := min 1 (e.movement_variance * 10)
  let signal_noise_ratio := calculateSNR F e.breath_history
  { current_stage :=
      classifySleepStage movement_intensity breathing_regularity
        e.breath_history.length
    confidence := min 1 ((e.breath_history.length : ℚ) / 20)
    breathing_rate_bpm := e.current_bpm
    breathing_regularity
    movement_intensity
    breath_cycles_detected := e.breath_history.length
    possible_apnea :=
      if 0 < e.last_breath_time ∧
          APNEA_THRESHOLD_MS < u64sub timestamp_ms e.last_breath_time
      then 1 else 0
    signal_quality :=
      assessSignalQuality signal_noise_ratio e.breath_history.length
        breathing_regularity
    signal_noise_ratio
    instability_score := e.phase_memory.instabilityScore
    instability_detected :=
      if e.phase_memory.instabilityDetected DEFAULT_ALPHA then 1 else 0 }

/-! ## C API boundary (extern "C" wrappers) -/

/-- Model of a C float argument at the API boundary: either a finite value
or one of the non-finite values rejected by std::isfinite. -/
inductive CFloat where
  | finite (val : ℚ)
  | nan
  | posInf
  | negInf
deriving DecidableEq, Repr

/-- std::isfinite. -/
def CFloat.isFinite : CFloat → Bool
  | .finite _ => true
  | _ => false

/-- The rational payload of a finite C float (never consulted for non-finite
inputs, which the boundary rejects before any use). -/
def CFloat.val! : CFloat → ℚ
  | .finite v => v
  | _ => 0

/-- respiro_start_session. -/
def respiro_start_session (handle : Option RespiroEngine)
    (timestamp_ms : ℕ) : Option RespiroEngine :=
  match handle with
  | none => none
  | some e => some (e.startSession timestamp_ms)

/-- respiro_feed_gyro: null-handle guard, then finiteness validation, then
the engine call. -/
def respiro_feed_gyro (handle : Option RespiroEngine) (x y z : CFloat)
    (timestamp_ms : ℕ) : Option RespiroEngine :=
  match handle with
  | none => none
  | some e =>
    if (x.isFinite && y.isFinite && z.isFinite) = false then some e
    else some (e.feedGyroscope x.val! y.val! z.val! timestamp_ms)

/-- respiro_feed_accel: null-handle guard, then finiteness validation, then
the engine call. -/
def respiro_feed_accel (F : RealFns) (handle : Option RespiroEngine)
    (x y z : CFloat) (timestamp_ms : ℕ) : Option RespiroEngine :=
  match handle with
  | none => none
  | some e =>
    if (x.isFinite && y.isFinite && z.isFinite) = false then some e
    else some (e.feedAccelerometer F x.val! y.val! z.val! timestamp_ms)

/-- The record produced by `memset(out, 0, sizeof *out)`: every field of the
output struct is zero (enum fields take the enumerator with value 0). -/
def zeroedMetrics : SleepMetrics where
  current_stage := .AWAKE
  confidence := 0
  breathing_rate_bpm := 0
  breathing_regularity := 0
  movement_intensity := 0
  breath_cycles_detected := 0
  possible_apnea := 0
  signal_quality := .SIGNAL_QUALITY_EXCELLENT
  signal_noise_ratio := 0
  instability_score := 0
  instability_detected := 0

/-- respiro_get_metrics.  The out pointer is modelled as an `Option`
(`none` = null pointer); the result is the record written through the
pointer (if any) together with the engine state after the call. -/
def respiro_get_metrics (F : RealFns) (handle : Option RespiroEngine)
    (timestamp_ms : ℕ) (out_metrics : Option SleepMetrics) :
    Option SleepMetrics × Option RespiroEngine :=
  match out_metrics with
  | none => (none, handle)
  | some _ =>
    match handle with
    | none => (some { zeroedMetrics with current_stage := .UNKNOWN }, none)
    | some e => (some (e.getCurrentMetrics F timestamp_ms), some e)

/-! ## Operation streams -/

/-- One mutating engine operation (the C API calls that change state). -/
inductive Op where
  | feedGyro (x y z : ℚ) (ts : ℕ)
  | feedAccel (x y z : ℚ) (ts : ℕ)
  | session (ts : ℕ)
deriving DecidableEq, Repr

/-- Apply one operation to an engine. -/
def applyOp (F : RealFns) (e : RespiroEngine) : Op → RespiroEngine
  | .feedGyro x y z ts => e.feedGyroscope x y z ts
  | .feedAccel x y z ts => e.feedAccelerometer F x y z ts
  | .session ts => e.startSession ts

/-- Run a list of operations from a given engine state. -/
def runOps (F : RealFns) (e : RespiroEngine) : List Op → RespiroEngine
  | [] => e
  | op :: rest => runOps F (applyOp F e op) rest

/-- Run the phase-memory operator over a stream of bandpassed samples,
starting from the reset state. -/
def pmRun (F : RealFns) (xs : List ℚ) : PhaseMemoryOperator :=
  xs.foldl (fun s x => s.update F x) PhaseMemoryOperator.reset

/-- A concrete interpretation of the transcendental functions, used to
evaluate the embedding at specific inputs. -/
def zeroFns : RealFns := ⟨fun _ _ => 0, fun _ => 0⟩

/-! ## Lemmas about one phase-memory update step -/

theorem update_of_not_initialized (F : RealFns) (s : PhaseMemoryOperator)
    (x : ℚ) (h : s.initialized = false) :
    s.update F x =
      { s with prev_x := x, prev_theta := 0, initialized := true } := by
  simp [PhaseMemoryOperator.update, h]

theorem update_initialized (F : RealFns) (s : PhaseMemoryOperator) (x : ℚ) :
    (s.update F x).initialized = true := by
  unfold PhaseMemoryOperator.update
  by_cases h0 : s.initialized = false
  · rw [if_pos h0]
  · have h1 : s.initialized = true := by revert h0; cases s.initialized <;> simp
    rw [if_neg h0]
    dsimp only
    by_cases h2 : s.baseline_ready = false
    · rw [if_pos h2]
      by_cases hc : BASELINE_SAMPLES ≤ s.baseline_count + 1
      · rw [if_pos hc]; exact h1
      · rw [if_neg hc]; exact h1
    · rw [if_neg h2]; exact h1

theorem update_step (F : RealFns) (s : PhaseMemoryOperator) (x : ℚ)
    (h1 : s.initialized = true) (h2 : s.baseline_ready = false) :
    (s.update F x).baseline_count = s.baseline_count + 1 ∧
    (s.update F x).baseline_ready
      = decide (BASELINE_SAMPLES ≤ s.baseline_count + 1) ∧
    (BASELINE_SAMPLES ≤ s.baseline_count + 1 →
      ∃ v, (s.update F x).sigma_omega
        = if F.sqrt v < 1 / 10000 then 1 / 10000 else F.sqrt v) ∧
    (s.baseline_count + 1 < BASELINE_SAMPLES →
      (s.update F x).sigma_omega = s.sigma_omega) := by
  unfold PhaseMemoryOperator.update
  rw [if_neg (by simp [h1])]
  dsimp only
  rw [if_pos h2]
  by_cases hc : BASELINE_SAMPLES ≤ s.baseline_count + 1
  · rw [if_pos hc]
    exact ⟨rfl, by simp [hc], fun _ => ⟨_, rfl⟩,
      fun hlt => absurd hc (by omega)⟩
  · rw [if_neg hc]
    exact ⟨rfl, by simp [hc, h2], fun hge => absurd hge hc, fun _ => rfl⟩

theorem update_of_ready (F : RealFns) (s : PhaseMemoryOperator) (x : ℚ)
    (h : s.baseline_ready = true) :
    (s.update F x).baseline_ready = true ∧
    (s.update F x).sigma_omega = s.sigma_omega := by
  unfold PhaseMemoryOperator.update
  by_cases h0 : s.initialized = false
  · rw [if_pos h0]; exact ⟨h, rfl⟩
  · rw [if_neg h0]
    dsimp only
    rw [if_neg (by simp [h])]
    exact ⟨h, rfl⟩

theorem update_sigma_lb (F : RealFns) (s : PhaseMemoryOperator) (x : ℚ)
    (h : 1 / 10000 ≤ s.sigma_omega) :
    1 / 10000 ≤ (s.update F x).sigma_omega := by
  unfold PhaseMemoryOperator.update
  by_cases h0 : s.initialized = false
  · rw [if_pos h0]; exact h
  · rw [if_neg h0]
    dsimp only
    by_cases h2 : s.baseline_ready = false
    · rw [if_pos h2]
      by_cases hc : BASELINE_SAMPLES ≤ s.baseline_count + 1
      · rw [if_pos hc]
        dsimp only
        split
        · exact le_refl _
        · next hnl => exact le_of_not_lt hnl
      · rw [if_neg hc]; exact h
    · rw [if_neg h2]; exact h

theorem update_zeroFns_cross (s : PhaseMemoryOperator) (x : ℚ)
    (h1 : s.initialized = true) (h2 : s.baseline_ready = false)
    (hc : BASELINE_SAMPLES ≤ s.baseline_count + 1) :
    (s.update zeroFns x).baseline_ready = true ∧
    (s.update zeroFns x).sigma_omega = 1 / 10000 := by
  obtain ⟨-, hready, hsig, -⟩ := update_step zeroFns s x h1 h2
  refine ⟨by rw [hready]; exact decide_eq_true hc, ?_⟩
  obtain ⟨v, hv⟩ := hsig hc
  rw [hv]
  norm_num [zeroFns]

/-! ## Folded phase-memory runs -/

theorem foldl_update_ready (F : RealFns) :
    ∀ (xs : List ℚ) (s : PhaseMemoryOperator),
      s.baseline_ready = true →
      (xs.foldl (fun a x => a.update F x) s).baseline_ready = true ∧
      (xs.foldl (fun a x => a.update F x) s).sigma_omega = s.sigma_omega := by
  intro xs
  induction xs with
  | nil => exact fun s h => ⟨h, rfl⟩
  | cons x rest ih =>
    intro s h
    obtain ⟨h1, h2⟩ := update_of_ready F s x h
    obtain ⟨h3, h4⟩ := ih (s.update F x) h1
    exact ⟨by simpa using h3, by rw [List.foldl_cons, h4, h2]⟩

theorem foldl_update_track (F : RealFns) :
    ∀ (xs : List ℚ) (s : PhaseMemoryOperator),
      s.initialized = true → s.baseline_ready = false →
      s.baseline_count < BASELINE_SAMPLES →
      (s.baseline_count + xs.length < BASELINE_SAMPLES →
        (xs.foldl (fun a x => a.update F x) s).baseline_ready = false ∧
        (xs.foldl (fun a x => a.update F x) s).baseline_count
          = s.baseline_count + xs.length ∧
        (xs.foldl (fun a x => a.update F x) s).initialized = true) ∧
      (BASELINE_SAMPLES ≤ s.baseline_count + xs.length →
        (xs.foldl (fun a x => a.update F x) s).baseline_ready = true) := by
  intro xs
  induction xs with
  | nil =>
    intro s h1 h2 h3
    exact ⟨fun _ => ⟨h2, rfl, h1⟩, fun hc => absurd hc (by simpa using h3)⟩
  | cons x rest ih =>
    intro s h1 h2 h3
    obtain ⟨hcount, hready, -, -⟩ := update_step F s x h1 h2
    by_cases hc : BASELINE_SAMPLES ≤ s.baseline_count + 1
    · have hr : (s.update F x).baseline_ready = true := by
        rw [hready]; exact decide_eq_true hc
      refine ⟨fun hlt => absurd hlt (by simp only [List.length_cons]; omega),
        fun _ => ?_⟩
      simpa using (foldl_update_ready F rest (s.update F x) hr).1
    · have hr : (s.update F x).baseline_ready = false := by
        rw [hready]; exact decide_eq_false hc
      have hi := update_initialized F s x
      obtain ⟨ih1, ih2⟩ :=
        ih (s.update F x) hi hr (by rw [hcount]; omega)
      constructor
      · intro hlt
        simp only [List.length_cons] at hlt
        obtain ⟨a1, a2, a3⟩ := ih1 (by rw [hcount]; omega)
        exact ⟨by simpa using a1,
          by simpa [hcount] using a2.trans (by omega),
          by simpa using a3⟩
      · intro hge
        simp only [List.length_cons] at hge
        simpa using ih2 (by rw [hcount]; omega)

/-! ## Which engine fields each operation touches -/

theorem detect_keeps (F : RealFns) (e : RespiroEngine) (signal : ℚ)
    (ts : ℕ) :
    (detectBreathingPeaks F e signal ts).phase_memory = e.phase_memory ∧
    (detectBreathingPeaks F e signal ts).gyro_buffer = e.gyro_buffer ∧
    (detectBreathingPeaks F e signal ts).accel_buffer = e.accel_buffer := by
  unfold detectBreathingPeaks
  dsimp only
  split
  · split
    · split <;> exact ⟨rfl, rfl, rfl⟩
    · exact ⟨rfl, rfl, rfl⟩
  · split <;> exact ⟨rfl, rfl, rfl⟩

theorem detect_breath_cases (F : RealFns) (e : RespiroEngine) (signal : ℚ)
    (ts : ℕ) :
    ((detectBreathingPeaks F e signal ts).breath_history = e.breath_history ∧
     (detectBreathingPeaks F e signal ts).last_breath_time
        = e.last_breath_time) ∨
    (∃ c : BreathCycle, c.timestamp_ms = ts ∧
      (detectBreathingPeaks F e signal ts).breath_history
        = trimBreaths ts (e.breath_history ++ [c]) ∧
      (detectBreathingPeaks F e signal ts).last_breath_time = ts) := by
  unfold detectBreathingPeaks
  dsimp only
  split
  · split
    · split
      · exact Or.inr ⟨_, rfl, rfl, rfl⟩
      · exact Or.inl ⟨rfl, rfl⟩
    · exact Or.inl ⟨rfl, rfl⟩
  · split <;> exact Or.inl ⟨rfl, rfl⟩

theorem feedGyro_keeps (e : RespiroEngine) (x y z : ℚ) (ts : ℕ) :
    (e.feedGyroscope x y z ts).phase_memory = e.phase_memory ∧
    (e.feedGyroscope x y z ts).accel_buffer = e.accel_buffer ∧
    (e.feedGyroscope x y z ts).breath_history = e.breath_history :=
  ⟨rfl, rfl, rfl⟩

theorem session_pm (e : RespiroEngine) (ts : ℕ) :
    (e.startSession ts).phase_memory = PhaseMemoryOperator.reset := rfl

/-- The bandpassed sample that one feedAccelerometer call hands to the
phase-memory operator and the peak detector. -/
def feedSignal (F : RealFns) (e : RespiroEngine) (x y z : ℚ) (ts : ℕ) : ℚ :=
  (e.breathing_filter.process
    (match e.gyro_buffer.getLast? with
     | some gyro_sample =>
       (removeGravity e.gravity_estimate
         (magnitude F ⟨x, y, z, ts⟩)).1 + magnitude F gyro_sample * (1 / 10)
     | none =>
       (removeGravity e.gravity_estimate (magnitude F ⟨x, y, z, ts⟩)).1)).1

theorem feedAccel_pm (F : RealFns) (e : RespiroEngine) (x y z : ℚ)
    (ts : ℕ) :
    (e.feedAccelerometer F x y z ts).phase_memory
      = e.phase_memory.update F (feedSignal F e x y z ts) := by
  unfold RespiroEngine.feedAccelerometer
  dsimp only
  rw [(detect_keeps F _ _ _).1]
  rfl

theorem reset_update_facts (F : RealFns) (a : ℚ) :
    (PhaseMemoryOperator.reset.update F a).initialized = true ∧
    (PhaseMemoryOperator.reset.update F a).baseline_ready = false ∧
    (PhaseMemoryOperator.reset.update F a).baseline_count = 0 := by
  rw [update_of_not_initialized F _ a rfl]
  exact ⟨rfl, rfl, rfl⟩

/-! ## Claim C4: instability decision gated by the baseline -/

/-- Claim C4: over any post-reset input stream, the instability decision is
false until 250 phase-velocity samples have been collected (that is, through
the 250th update call; the 251st call, counting the bootstrap call as the
first, completes the baseline), and once the baseline is ready the decision
is true exactly when the current delta-phi exceeds DEFAULT_ALPHA times
sigma-omega. -/
theorem instability_baseline_gated (F : RealFns) (xs : List ℚ) :
    (xs.length ≤ BASELINE_SAMPLES →
      (pmRun F xs).instabilityDetected DEFAULT_ALPHA = false) ∧
    (BASELINE_SAMPLES + 1 ≤ xs.length →
      (pmRun F xs).baseline_ready = true ∧
      ((pmRun F xs).instabilityDetected DEFAULT_ALPHA = true ↔
        DEFAULT_ALPHA * (pmRun F xs).sigma_omega < (pmRun F xs).delta_phi)) := by
  match xs with
  | [] =>
    refine ⟨fun _ => ?_, fun h => absurd h (by simp [BASELINE_SAMPLES])⟩
    simp [pmRun, PhaseMemoryOperator.instabilityDetected,
      PhaseMemoryOperator.reset]
  | a :: rest =>
    obtain ⟨hbi, hbr, hbc⟩ := reset_update_facts F a
    have hrun : pmRun F (a :: rest)
        = rest.foldl (fun s x => s.update F x)
            (PhaseMemoryOperator.reset.update F a) := by
      simp [pmRun]
    have htrack := foldl_update_track F rest
      (PhaseMemoryOperator.reset.update F a)
      hbi hbr (by rw [hbc]; norm_num [BASELINE_SAMPLES])
    have hcount0 := hbc
    constructor
    · intro hlen
      simp only [List.length_cons] at hlen
      obtain ⟨hrdy, -, -⟩ := htrack.1 (by
        rw [hcount0]
        simp only [BASELINE_SAMPLES] at hlen ⊢
        omega)
      rw [hrun]
      simp [PhaseMemoryOperator.instabilityDetected, hrdy]
    · intro hlen
      simp only [List.length_cons] at hlen
      have hrdy := htrack.2 (by
        rw [hcount0]
        simp only [BASELINE_SAMPLES] at hlen ⊢
        omega)
      rw [hrun]
      refine ⟨hrdy, ?_⟩
      simp [PhaseMemoryOperator.instabilityDetected, hrdy]

set_option maxRecDepth 10000 in
/-- Witness for instability_baseline_gated: a three-sample stream is below
the baseline and yields a false decision; a 251-sample stream completes the
baseline. -/
theorem instability_baseline_gated_witness :
    ((List.replicate 3 (0 : ℚ)).length ≤ BASELINE_SAMPLES ∧
      (pmRun zeroFns (List.replicate 3 0)).instabilityDetected
        DEFAULT_ALPHA = false) ∧
    (BASELINE_SAMPLES + 1 ≤ (List.replicate 251 (0 : ℚ)).length ∧
      (pmRun zeroFns (List.replicate 251 0)).baseline_ready = true) :=
  ⟨⟨by simp [BASELINE_SAMPLES],
    (instability_baseline_gated zeroFns _).1 (by simp [BASELINE_SAMPLES])⟩,
   ⟨by simp [BASELINE_SAMPLES],
    ((instability_baseline_gated zeroFns _).2
      (by simp [BASELINE_SAMPLES])).1⟩⟩

/-! ## Claim C6: the sigma-omega floor and freeze -/

theorem runOps_cons (F : RealFns) (e : RespiroEngine) (op : Op)
    (rest : List Op) :
    runOps F e (op :: rest) = runOps F (applyOp F e op) rest := rfl

theorem applyOp_accel (F : RealFns) (e : RespiroEngine) (x y z : ℚ)
    (ts : ℕ) :
    applyOp F e (Op.feedAccel x y z ts) = e.feedAccelerometer F x y z ts :=
  rfl

theorem runOps_sigma_lb (F : RealFns) :
    ∀ (ops : List Op) (e : RespiroEngine),
      1 / 10000 ≤ e.phase_memory.sigma_omega →
      1 / 10000 ≤ (runOps F e ops).phase_memory.sigma_omega := by
  intro ops
  induction ops with
  | nil => exact fun e h => h
  | cons op rest ih =>
    intro e h
    rw [runOps_cons]
    apply ih
    cases op with
    | feedGyro x y z ts => exact h
    | feedAccel x y z ts =>
      rw [applyOp_accel, feedAccel_pm]
      exact update_sigma_lb F _ _ h
    | session ts =>
      have hs : (applyOp F e (Op.session ts)).phase_memory.sigma_omega
          = 1 := rfl
      rw [hs]
      norm_num

/-- Claim C6 (amended): in every engine state reachable by any operation
stream, sigma-omega is at least 1e-4; once the baseline-ready flag is set,
no phase-memory update (i.e. no subsequent sample feed) modifies
sigma-omega; start_session, however, reinitializes sigma-omega to its
default 1.0. -/
theorem sigma_floor_and_freeze :
    (∀ (F : RealFns) (ops : List Op),
      1 / 10000 ≤ (runOps F RespiroEngine.init ops).phase_memory.sigma_omega) ∧
    (∀ (F : RealFns) (s : PhaseMemoryOperator) (x : ℚ),
      s.baseline_ready = true →
      (s.update F x).sigma_omega = s.sigma_omega ∧
      (s.update F x).baseline_ready = true) ∧
    (∀ (e : RespiroEngine) (ts : ℕ),
      (e.startSession ts).phase_memory.sigma_omega = 1) := by
  refine ⟨fun F ops => runOps_sigma_lb F ops _ (by
    rw [show RespiroEngine.init.phase_memory.sigma_omega = 1 from rfl]
    norm_num), ?_, ?_⟩
  · intro F s x h
    obtain ⟨h1, h2⟩ := update_of_ready F s x h
    exact ⟨h2, h1⟩
  · intro e ts
    rfl

/-- Witness for sigma_floor_and_freeze: at a baseline-ready state with
sigma-omega 5, an update leaves sigma-omega at 5. -/
theorem sigma_floor_and_freeze_witness :
    ({ PhaseMemoryOperator.reset with
        baseline_ready := true,
        sigma_omega := 5 } : PhaseMemoryOperator).baseline_ready = true ∧
    (PhaseMemoryOperator.update zeroFns
      { PhaseMemoryOperator.reset with
        baseline_ready := true,
        sigma_omega := 5 } 0).sigma_omega = 5 :=
  ⟨rfl, by
    rw [(sigma_floor_and_freeze.2.1 zeroFns
      { PhaseMemoryOperator.reset with
        baseline_ready := true,
        sigma_omega := 5 } 0 rfl).1]⟩

theorem engine_ready_sticky :
    ∀ (n : ℕ) (e : RespiroEngine),
      e.phase_memory.baseline_ready = true →
      (runOps zeroFns e
        (List.replicate n (Op.feedAccel 0 0 0 0))).phase_memory.baseline_ready
          = true ∧
      (runOps zeroFns e
        (List.replicate n (Op.feedAccel 0 0 0 0))).phase_memory.sigma_omega
          = e.phase_memory.sigma_omega := by
  intro n
  induction n with
  | zero => exact fun e h => ⟨h, rfl⟩
  | succ n ih =>
    intro e h
    rw [List.replicate_succ, runOps_cons, applyOp_accel]
    have hpm := feedAccel_pm zeroFns e 0 0 0 0
    obtain ⟨h1, h2⟩ := update_of_ready zeroFns e.phase_memory
      (feedSignal zeroFns e 0 0 0 0) h
    obtain ⟨h3, h4⟩ := ih (e.feedAccelerometer zeroFns 0 0 0 0)
      (by rw [hpm]; exact h1)
    exact ⟨h3, by rw [h4, hpm, h2]⟩

theorem engine_calibration_cross :
    ∀ (n : ℕ) (e : RespiroEngine),
      e.phase_memory.initialized = true →
      e.phase_memory.baseline_ready = false →
      e.phase_memory.baseline_count < BASELINE_SAMPLES →
      BASELINE_SAMPLES ≤ e.phase_memory.baseline_count + n →
      (runOps zeroFns e
        (List.replicate n (Op.feedAccel 0 0 0 0))).phase_memory.baseline_ready
          = true ∧
      (runOps zeroFns e
        (List.replicate n (Op.feedAccel 0 0 0 0))).phase_memory.sigma_omega
          = 1 / 10000 := by
  intro n
  induction n with
  | zero =>
    intro e h1 h2 h3 h4
    rw [Nat.add_zero] at h4
    exact absurd h4 (Nat.not_le.mpr h3)
  | succ n ih =>
    intro e h1 h2 h3 h4
    rw [List.replicate_succ, runOps_cons, applyOp_accel]
    have hpm := feedAccel_pm zeroFns e 0 0 0 0
    by_cases hc : BASELINE_SAMPLES ≤ e.phase_memory.baseline_count + 1
    · obtain ⟨hr, hs⟩ := update_zeroFns_cross e.phase_memory
        (feedSignal zeroFns e 0 0 0 0) h1 h2 hc
      obtain ⟨s1, s2⟩ := engine_ready_sticky n
        (e.feedAccelerometer zeroFns 0 0 0 0) (by rw [hpm]; exact hr)
      exact ⟨s1, by rw [s2, hpm, hs]⟩
    · obtain ⟨hcnt, hrd, -, -⟩ := update_step zeroFns e.phase_memory
        (feedSignal zeroFns e 0 0 0 0) h1 h2
      refine ih (e.feedAccelerometer zeroFns 0 0 0 0)
        (by rw [hpm]; exact update_initialized _ _ _)
        (by rw [hpm, hrd]; exact decide_eq_false hc)
        (by rw [hpm, hcnt]; exact Nat.lt_of_not_le hc)
        (by rw [hpm, hcnt]; omega)

/-- The operation stream used to drive the engine through a complete
baseline calibration: one session start, then 251 accelerometer feeds. -/
def calibOps : List Op :=
  Op.session 0 :: Op.feedAccel 0 0 0 0 ::
    List.replicate 250 (Op.feedAccel 0 0 0 0)

set_option maxRecDepth 100000 in
/-- Counterexample to claim C6 as stated: after calibration completes
(baseline ready, sigma-omega frozen at 1e-4), the subsequent operation
start_session changes sigma-omega back to 1. -/
theorem sigma_modified_after_ready_cex :
    (runOps zeroFns RespiroEngine.init calibOps).phase_memory.baseline_ready
      = true ∧
    (runOps zeroFns RespiroEngine.init calibOps).phase_memory.sigma_omega
      = 1 / 10000 ∧
    ((runOps zeroFns RespiroEngine.init
        calibOps).startSession 1000).phase_memory.sigma_omega = 1 ∧
    (1 / 10000 : ℚ) ≠ 1 := by
  have h0 : runOps zeroFns RespiroEngine.init calibOps
      = runOps zeroFns
          ((RespiroEngine.init.startSession 0).feedAccelerometer
            zeroFns 0 0 0 0)
          (List.replicate 250 (Op.feedAccel 0 0 0 0)) := rfl
  have hpm1 := feedAccel_pm zeroFns (RespiroEngine.init.startSession 0)
    0 0 0 0
  rw [session_pm] at hpm1
  obtain ⟨hbi, hbr, hbc⟩ := reset_update_facts zeroFns
    (feedSignal zeroFns (RespiroEngine.init.startSession 0) 0 0 0 0)
  obtain ⟨hr, hs⟩ := engine_calibration_cross 250
    ((RespiroEngine.init.startSession 0).feedAccelerometer zeroFns 0 0 0 0)
    (by rw [hpm1]; exact hbi)
    (by rw [hpm1]; exact hbr)
    (by rw [hpm1, hbc]; norm_num [BASELINE_SAMPLES])
    (by rw [hpm1, hbc]; norm_num [BASELINE_SAMPLES])
  exact ⟨by rw [h0]; exact hr, by rw [h0]; exact hs, rfl, by norm_num⟩

/-! ## Claim C7: non-finite samples are dropped at the boundary -/

/-- Claim C7: a feed_accel or feed_gyro call in which any coordinate is NaN
or infinite returns with the engine state completely unchanged. -/
theorem nonfinite_input_dropped (F : RealFns) (handle : Option RespiroEngine)
    (x y z : CFloat) (ts : ℕ)
    (h : x.isFinite = false ∨ y.isFinite = false ∨ z.isFinite = false) :
    respiro_feed_accel F handle x y z ts = handle ∧
    respiro_feed_gyro handle x y z ts = handle := by
  cases handle with
  | none => exact ⟨rfl, rfl⟩
  | some e =>
    have hb : (x.isFinite && y.isFinite && z.isFinite) = false := by
      rcases h with h | h | h <;> simp [h]
    simp [respiro_feed_accel, respiro_feed_gyro, hb]

/-- Witness for nonfinite_input_dropped at a NaN x coordinate. -/
theorem nonfinite_input_dropped_witness :
    CFloat.nan.isFinite = false ∧
    respiro_feed_accel zeroFns (some RespiroEngine.init) CFloat.nan
      (CFloat.finite 0) (CFloat.finite 0) 5 = some RespiroEngine.init ∧
    respiro_feed_gyro (some RespiroEngine.init) CFloat.nan
      (CFloat.finite 0) (CFloat.finite 0) 5 = some RespiroEngine.init :=
  ⟨rfl,
   (nonfinite_input_dropped zeroFns (some RespiroEngine.init) CFloat.nan
     (CFloat.finite 0) (CFloat.finite 0) 5 (Or.inl rfl)).1,
   (nonfinite_input_dropped zeroFns (some RespiroEngine.init) CFloat.nan
     (CFloat.finite 0) (CFloat.finite 0) 5 (Or.inl rfl)).2⟩

/-! ## Claim C9: apnea flag under timestamp wraparound -/

/-- Claim C9: with a positive last breath time, a query timestamp earlier
than it makes the wrapping uint64 subtraction huge, so the apnea flag is
raised whenever that wrapped difference exceeds the 10000 ms threshold. -/
theorem apnea_wraparound (F : RealFns) (e : RespiroEngine) (now : ℕ)
    (h1 : 0 < e.last_breath_time) (h2 : now < e.last_breath_time)
    (h3 : APNEA_THRESHOLD_MS < u64sub now e.last_breath_time) :
    (e.getCurrentMetrics F now).possible_apnea = 1 := by
  unfold RespiroEngine.getCurrentMetrics
  dsimp only
  rw [if_pos ⟨h1, h3⟩]

/-- Witness for apnea_wraparound: last breath at 5000 ms, query at 1000 ms. -/
theorem apnea_wraparound_witness :
    0 < ({ RespiroEngine.init with
      last_breath_time := 5000 } : RespiroEngine).last_breath_time ∧
    1000 < ({ RespiroEngine.init with
      last_breath_time := 5000 } : RespiroEngine).last_breath_time ∧
    APNEA_THRESHOLD_MS < u64sub 1000 5000 ∧
    (({ RespiroEngine.init with
        last_breath_time := 5000 } : RespiroEngine).getCurrentMetrics
      zeroFns 1000).possible_apnea = 1 :=
  ⟨by decide, by decide, by decide,
   apnea_wraparound zeroFns _ 1000 (by decide) (by decide) (by decide)⟩

/-! ## Claim C10: null output pointer -/

/-- Claim C10: query_metrics with a null output pointer writes nothing and
leaves the engine state unchanged, for any handle. -/
theorem null_out_noop (F : RealFns) (handle : Option RespiroEngine)
    (ts : ℕ) :
    respiro_get_metrics F handle ts none = (none, handle) := rfl

/-! ## Claim C1: query_metrics with a null handle -/

/-- Claim C1 (amended): with a null handle and a non-null output pointer,
the output record is zero-filled and then current_stage is set to UNKNOWN
(code 4); signal_quality is left at the zero-filled enumerator
EXCELLENT (code 0), not UNKNOWN; every other field is zero. -/
theorem null_handle_metrics (F : RealFns) (ts : ℕ) (m : SleepMetrics) :
    respiro_get_metrics F none ts (some m)
      = (some { zeroedMetrics with current_stage := SleepStage.UNKNOWN },
         none) ∧
    ({ zeroedMetrics with
        current_stage := SleepStage.UNKNOWN } : SleepMetrics).current_stage.code
      = 4 ∧
    ({ zeroedMetrics with
        current_stage := SleepStage.UNKNOWN } : SleepMetrics).signal_quality.code
      = 0 :=
  ⟨rfl, rfl, rfl⟩

/-- Counterexample to claim C1 as stated: the record written for a null
handle has signal_quality EXCELLENT (enumerator value 0), not UNKNOWN
(enumerator value 4). -/
theorem null_handle_quality_cex :
    ((respiro_get_metrics zeroFns none 0 (some zeroedMetrics)).1.getD
        zeroedMetrics).signal_quality
      = SignalQuality.SIGNAL_QUALITY_EXCELLENT ∧
    SignalQuality.SIGNAL_QUALITY_EXCELLENT.code = 0 ∧
    SignalQuality.SIGNAL_QUALITY_UNKNOWN.code = 4 ∧
    ((respiro_get_metrics zeroFns none 0 (some zeroedMetrics)).1.getD
        zeroedMetrics).signal_quality
      ≠ SignalQuality.SIGNAL_QUALITY_UNKNOWN :=
  ⟨rfl, rfl, rfl, by decide⟩

/-! ## Claim C2: what start_session resets -/

/-- Claim C2 (amended): start_session returns every field to the
freshly-constructed engine's initial value and records the session start
timestamp, except that the gyro and accel sample windows are left
untouched. -/
theorem startSession_resets (e : RespiroEngine) (ts : ℕ) :
    e.startSession ts
      = { RespiroEngine.init with
          gyro_buffer := e.gyro_buffer,
          accel_buffer := e.accel_buffer,
          session_start_time := ts } := rfl

theorem feedAccel_buffers (F : RealFns) (e : RespiroEngine) (x y z : ℚ)
    (ts : ℕ) :
    (e.feedAccelerometer F x y z ts).gyro_buffer = e.gyro_buffer ∧
    (e.feedAccelerometer F x y z ts).accel_buffer
      = (trimAccel ts (e.accel_buffer ++ [⟨x, y, z, ts⟩])
          (e.accel_magnitude_buffer ++ [magnitude F ⟨x, y, z, ts⟩])
          (e.accel_magnitude_sum + magnitude F ⟨x, y, z, ts⟩)
          (e.accel_magnitude_sum_squares
            + magnitude F ⟨x, y, z, ts⟩ * magnitude F ⟨x, y, z, ts⟩)).1 := by
  unfold RespiroEngine.feedAccelerometer
  dsimp only
  exact ⟨(detect_keeps F _ _ _).2.1, by rw [(detect_keeps F _ _ _).2.2]⟩

/-- Counterexample to claim C2 as stated: after feeding one gyro and one
accel sample, start_session leaves both sample windows non-empty. -/
theorem startSession_windows_cex :
    (((RespiroEngine.init.feedGyroscope 1 1 1 0).feedAccelerometer zeroFns
        0 0 1 20).startSession 5000).gyro_buffer
      = [⟨1, 1, 1, 0⟩] ∧
    (((RespiroEngine.init.feedGyroscope 1 1 1 0).feedAccelerometer zeroFns
        0 0 1 20).startSession 5000).accel_buffer
      = [⟨0, 0, 1, 20⟩] ∧
    ([⟨1, 1, 1, 0⟩] : List SensorSample) ≠ [] ∧
    ([⟨0, 0, 1, 20⟩] : List SensorSample) ≠ [] := by
  have hg : (((RespiroEngine.init.feedGyroscope 1 1 1 0).feedAccelerometer
      zeroFns 0 0 1 20).startSession 5000).gyro_buffer
      = ((RespiroEngine.init.feedGyroscope 1 1 1 0).feedAccelerometer
          zeroFns 0 0 1 20).gyro_buffer := rfl
  have ha : (((RespiroEngine.init.feedGyroscope 1 1 1 0).feedAccelerometer
      zeroFns 0 0 1 20).startSession 5000).accel_buffer
      = ((RespiroEngine.init.feedGyroscope 1 1 1 0).feedAccelerometer
          zeroFns 0 0 1 20).accel_buffer := rfl
  obtain ⟨hb1, hb2⟩ := feedAccel_buffers zeroFns
    (RespiroEngine.init.feedGyroscope 1 1 1 0) 0 0 1 20
  refine ⟨?_, ?_, by decide, by decide⟩
  · rw [hg, hb1]
    decide
  · rw [ha, hb2]
    rw [show (RespiroEngine.init.feedGyroscope 1 1 1 0).accel_buffer
      = [] from rfl]
    rw [show (RespiroEngine.init.feedGyroscope 1 1 1 0).accel_magnitude_buffer
      = [] from rfl]
    rw [show ([] : List SensorSample) ++ [(⟨0, 0, 1, 20⟩ : SensorSample)]
      = [⟨0, 0, 1, 20⟩] from rfl]
    unfold trimAccel
    rw [if_neg (by decide)]

/-! ## Claim C5: the breathing-rate computation -/

theorem u64sub_of_le {a b : ℕ} (h1 : b ≤ a) (h2 : a < 2 ^ 64) :
    u64sub a b = a - b := by
  unfold u64sub
  have h3 : a + 2 ^ 64 - b = (a - b) + 2 ^ 64 := by omega
  rw [h3, Nat.add_mod_right, Nat.mod_eq_of_lt (by omega)]

theorem takeWhile_congr {α : Type} (p q : α → Bool) :
    ∀ l : List α, (∀ x ∈ l, p x = q x) →
      l.takeWhile p = l.takeWhile q := by
  intro l
  induction l with
  | nil => intro _; rfl
  | cons a t ih =>
    intro h
    rw [List.takeWhile_cons, List.takeWhile_cons, h a (List.mem_cons_self a t)]
    by_cases hqa : q a = true
    · rw [if_pos hqa, if_pos hqa, ih (fun x hx => h x (List.mem_cons_of_mem a hx))]
    · rw [if_neg hqa, if_neg hqa]

/-- The breath cycles lying in the 30-second window before `now`, collected
newest to oldest and stopping at the first cycle outside the window
(mathematical-integer subtraction). -/
def windowedCycles (history : List BreathCycle) (now : ℕ) :
    List BreathCycle :=
  history.reverse.takeWhile fun c =>
    decide (c.timestamp_ms ≤ now) && decide (now - c.timestamp_ms ≤ 30000)

/-- The breathing-rate computation as claim C5 (amended) states it: 0 when
the breath history holds fewer than 3 cycles in total or the mean windowed
duration is below 1e-6, and otherwise 60000 over that mean. -/
def rateSpec (history : List BreathCycle) : ℚ :=
  if history.length < 3 then 0
  else
    match history.getLast? with
    | none => 0
    | some newest =>
      let ds := (windowedCycles history newest.timestamp_ms).map
        (fun c => c.duration_ms)
      let mean := (ds.foldl (· + ·) 0) / (ds.length : ℚ)
      if mean < EPSILON then 0 else 60000 / mean

/-- Claim C5 (amended): for u64-range timestamps, the engine's breathing
rate equals rateSpec: it is 0 whenever the whole breath history holds fewer
than 3 cycles (regardless of how many lie in the 30-second window) or the
mean duration of the windowed cycles is below 1e-6, and otherwise equals
60000 divided by that mean. -/
theorem breathing_rate_refines (history : List BreathCycle)
    (hb : ∀ c ∈ history, c.timestamp_ms < 2 ^ 64) :
    calculateBreathingRate history = rateSpec history := by
  unfold calculateBreathingRate rateSpec windowedCycles
  by_cases hlen : history.length < 3
  · rw [if_pos hlen, if_pos hlen]
  · rw [if_neg hlen, if_neg hlen]
    cases hL : history.getLast? with
    | none => rfl
    | some newest =>
      have hnow : newest.timestamp_ms < 2 ^ 64 := by
        obtain ⟨hne, heq⟩ := List.mem_getLast?_eq_getLast
          (show newest ∈ history.getLast? from Option.mem_def.mpr hL)
        exact hb _ (heq ▸ List.getLast_mem hne)
      have hcong : (history.reverse.takeWhile fun c =>
            decide (c.timestamp_ms ≤ newest.timestamp_ms) &&
            decide (u64sub newest.timestamp_ms c.timestamp_ms ≤ 30000))
          = history.reverse.takeWhile fun c =>
            decide (c.timestamp_ms ≤ newest.timestamp_ms) &&
            decide (newest.timestamp_ms - c.timestamp_ms ≤ 30000) := by
        apply takeWhile_congr
        intro c _
        by_cases hle : c.timestamp_ms ≤ newest.timestamp_ms
        · rw [u64sub_of_le hle hnow]
        · simp [hle]
      dsimp only
      simp only [hcong]
      by_cases hemp : ((history.reverse.takeWhile fun c =>
          decide (c.timestamp_ms ≤ newest.timestamp_ms) &&
          decide (newest.timestamp_ms - c.timestamp_ms ≤ 30000)).map
            (fun c => c.duration_ms)) = []
      · simp only [hemp]
        norm_num [EPSILON]
      · have hfalse : ((history.reverse.takeWhile fun c =>
            decide (c.timestamp_ms ≤ newest.timestamp_ms) &&
            decide (newest.timestamp_ms - c.timestamp_ms ≤ 30000)).map
              (fun c => c.duration_ms)).isEmpty = false := by
          cases hx : ((history.reverse.takeWhile fun c =>
              decide (c.timestamp_ms ≤ newest.timestamp_ms) &&
              decide (newest.timestamp_ms - c.timestamp_ms ≤ 30000)).map
                (fun c => c.duration_ms)) with
          | nil => exact absurd hx hemp
          | cons a t => rfl
        rw [if_neg (by rw [hfalse]; exact Bool.false_ne_true)]

/-- Witness for breathing_rate_refines at a concrete three-cycle history. -/
theorem breathing_rate_refines_witness :
    (∀ c ∈ ([⟨1000, 1, 800⟩, ⟨2000, 1, 1000⟩,
        ⟨3000, 1, 1000⟩] : List BreathCycle), c.timestamp_ms < 2 ^ 64) ∧
    calculateBreathingRate
        [⟨1000, 1, 800⟩, ⟨2000, 1, 1000⟩, ⟨3000, 1, 1000⟩]
      = rateSpec [⟨1000, 1, 800⟩, ⟨2000, 1, 1000⟩, ⟨3000, 1, 1000⟩] :=
  ⟨by decide, breathing_rate_refines _ (by decide)⟩

/-- A breath history with three cycles of which only the newest lies in the
30-second window before the newest timestamp. -/
def cexHist : List BreathCycle :=
  [⟨0, 1, 1000⟩, ⟨0, 1, 1000⟩, ⟨100000, 1, 1000⟩]

/-- Counterexample to claim C5 as stated: only one cycle of cexHist lies
within 30000 ms of the newest cycle's timestamp (fewer than 3), yet the
computed breathing rate is 60, not 0: the less-than-3 guard in the code
counts the whole history, not the windowed cycles. -/
theorem breathing_rate_window_cex :
    (windowedCycles cexHist 100000).length = 1 ∧
    (windowedCycles cexHist 100000).length < 3 ∧
    cexHist.getLast? = some ⟨100000, 1, 1000⟩ ∧
    calculateBreathingRate cexHist = 60 ∧
    (60 : ℚ) ≠ 0 := by
  refine ⟨by decide, by decide, by decide, ?_, by norm_num⟩
  unfold calculateBreathingRate
  rw [if_neg (by decide)]
  rw [show cexHist.getLast? = some ⟨100000, 1, 1000⟩ from by decide]
  dsimp only
  rw [show (cexHist.reverse.takeWhile fun c =>
      decide (c.timestamp_ms ≤ 100000) &&
      decide (u64sub 100000 c.timestamp_ms ≤ 30000))
    = [⟨100000, 1, 1000⟩] from by decide]
  norm_num [EPSILON]

/-! ## Claim C8: the quiescent-to-in_peak transition -/

/-- Claim C8: when a bandpassed sample triggers the quiescent-to-in_peak
transition (signal above the updated threshold while not in a peak), a
breath cycle with timestamp now, duration now minus last_peak_time, and
amplitude signal over the validated stddev is appended (with the 60-second
trim) and last_breath_time is updated, exactly when last_peak_time is
positive, now is not earlier than it, and the duration lies strictly
between 500 and 6000 ms; in every case in_peak, last_peak_time and
last_peak_value are updated. -/
theorem peak_transition (F : RealFns) (e : RespiroEngine) (signal : ℚ)
    (ts : ℕ) (hp : e.in_peak = false)
    (ht : (peakStats F e signal).2.2.2 < signal) :
    ((0 < e.last_peak_time ∧ e.last_peak_time ≤ ts ∧
        500 < ts - e.last_peak_time ∧ ts - e.last_peak_time < 6000) →
      (detectBreathingPeaks F e signal ts).breath_history
        = trimBreaths ts (e.breath_history
            ++ [⟨ts, signal / (peakStats F e signal).2.2.1,
                 ((ts - e.last_peak_time : ℕ) : ℚ)⟩]) ∧
      (detectBreathingPeaks F e signal ts).last_breath_time = ts) ∧
    (¬(0 < e.last_peak_time ∧ e.last_peak_time ≤ ts ∧
        500 < ts - e.last_peak_time ∧ ts - e.last_peak_time < 6000) →
      (detectBreathingPeaks F e signal ts).breath_history
        = e.breath_history ∧
      (detectBreathingPeaks F e signal ts).last_breath_time
        = e.last_breath_time) ∧
    (detectBreathingPeaks F e signal ts).in_peak = true ∧
    (detectBreathingPeaks F e signal ts).last_peak_time = ts ∧
    (detectBreathingPeaks F e signal ts).last_peak_value = signal := by
  unfold detectBreathingPeaks
  dsimp only
  rw [if_pos ⟨hp, ht⟩]
  refine ⟨?_, ?_, rfl, rfl, rfl⟩
  · rintro ⟨h1, h2, h3, h4⟩
    rw [if_pos ⟨h1, h2⟩, if_pos ⟨h3, h4⟩]
    exact ⟨rfl, rfl⟩
  · intro hneg
    by_cases hc12 : 0 < e.last_peak_time ∧ e.last_peak_time ≤ ts
    · rw [if_pos hc12]
      have hc34 : ¬(500 < ts - e.last_peak_time ∧
          ts - e.last_peak_time < 6000) :=
        fun h => hneg ⟨hc12.1, hc12.2, h.1, h.2⟩
      rw [if_neg hc34]
      exact ⟨rfl, rfl⟩
    · rw [if_neg hc12]
      exact ⟨rfl, rfl⟩

/-- A state used to witness the peak transition: fresh engine with a prior
peak at 1000 ms and an empty signal ring. -/
def peakWitnessEngine : RespiroEngine :=
  { RespiroEngine.init with
    last_peak_time := 1000,
    breathing_signal_buffer := [] }

/-- Witness for peak_transition: at signal 1 and timestamp 2000, the
transition fires, a cycle of duration 1000 is recorded, and the peak state
is updated. -/
theorem peak_transition_witness :
    peakWitnessEngine.in_peak = false ∧
    (peakStats zeroFns peakWitnessEngine 1).2.2.2 < 1 ∧
    0 < peakWitnessEngine.last_peak_time ∧
    peakWitnessEngine.last_peak_time ≤ 2000 ∧
    500 < 2000 - peakWitnessEngine.last_peak_time ∧
    2000 - peakWitnessEngine.last_peak_time < 6000 ∧
    (detectBreathingPeaks zeroFns peakWitnessEngine 1 2000).last_breath_time
      = 2000 ∧
    (detectBreathingPeaks zeroFns peakWitnessEngine 1 2000).in_peak
      = true := by
  have hp : peakWitnessEngine.in_peak = false := rfl
  have hidx : peakWitnessEngine.buffer_index = 0 := rfl
  have hbuf : peakWitnessEngine.breathing_signal_buffer = [] := rfl
  have hsum : peakWitnessEngine.breathing_signal_sum = 0 := rfl
  have hsq : peakWitnessEngine.breathing_signal_sum_squares = 0 := rfl
  have ht : (peakStats zeroFns peakWitnessEngine 1).2.2.2 < 1 := by
    norm_num [peakStats, hidx, hbuf, hsum, hsq, zeroFns, MIN_STDDEV,
      PEAK_THRESHOLD_MULTIPLIER, BUFFER_SIZE, List.getD]
  have h := peak_transition zeroFns peakWitnessEngine 1 2000 hp ht
  exact ⟨hp, ht, by decide, by decide, by decide, by decide,
    (h.1 ⟨by decide, by decide, by decide, by decide⟩).2, h.2.2.1⟩

/-! ## Claim C3: trimming is per channel -/

/-- Sensor-sample timestamps in non-decreasing order. -/
def sampleSorted (l : List SensorSample) : Prop :=
  l.Pairwise fun a b => a.timestamp_ms ≤ b.timestamp_ms

/-- All sensor-sample timestamps at most T. -/
def sampleBelow (l : List SensorSample) (T : ℕ) : Prop :=
  ∀ s ∈ l, s.timestamp_ms ≤ T

/-- Breath-cycle timestamps in non-decreasing order. -/
def cycleSorted (l : List BreathCycle) : Prop :=
  l.Pairwise fun a b => a.timestamp_ms ≤ b.timestamp_ms

/-- All breath-cycle timestamps at most T. -/
def cycleBelow (l : List BreathCycle) (T : ℕ) : Prop :=
  ∀ c ∈ l, c.timestamp_ms ≤ T

/-- Every retained breath cycle lies within 60000 ms of the newest one. -/
def cycleWithin (l : List BreathCycle) : Prop :=
  ∀ last ∈ l.getLast?, ∀ c ∈ l,
    last.timestamp_ms ≤ c.timestamp_ms + 60000

theorem u64sub_self (a : ℕ) : u64sub a a = 0 := by
  unfold u64sub
  omega

theorem trimSamples_fresh (T w : ℕ) (hT : T < 2 ^ 64) :
    ∀ l : List SensorSample, sampleSorted l → sampleBelow l T →
      ∀ s ∈ trimSamples T w l, T ≤ s.timestamp_ms + w := by
  intro l
  induction l with
  | nil => intro _ _ s hs; cases hs
  | cons a rest ih =>
    intro hsort hbel
    unfold trimSamples
    by_cases hc : w < u64sub T a.timestamp_ms
    · rw [if_pos hc]
      exact ih (List.pairwise_cons.mp hsort).2
        (fun s hs => hbel s (List.mem_cons_of_mem a hs))
    · rw [if_neg hc]
      have ha : a.timestamp_ms ≤ T := hbel a (List.mem_cons_self a rest)
      have hub : u64sub T a.timestamp_ms = T - a.timestamp_ms :=
        u64sub_of_le ha hT
      have haw : T ≤ a.timestamp_ms + w := by
        rw [hub] at hc
        omega
      intro s hs
      rcases List.mem_cons.mp hs with rfl | hs2
      · exact haw
      · have := (List.pairwise_cons.mp hsort).1 s hs2
        omega

theorem trimSamples_sorted (T w : ℕ) :
    ∀ l : List SensorSample, sampleSorted l →
      sampleSorted (trimSamples T w l) := by
  intro l
  induction l with
  | nil => intro _; exact List.Pairwise.nil
  | cons a rest ih =>
    intro hsort
    unfold trimSamples
    by_cases hc : w < u64sub T a.timestamp_ms
    · rw [if_pos hc]
      exact ih (List.pairwise_cons.mp hsort).2
    · rw [if_neg hc]
      exact hsort

theorem trimSamples_subset (T w : ℕ) :
    ∀ (l : List SensorSample) (s : SensorSample),
      s ∈ trimSamples T w l → s ∈ l := by
  intro l
  induction l with
  | nil => intro s hs; simp [trimSamples] at hs
  | cons a rest ih =>
    intro s
    unfold trimSamples
    by_cases hc : w < u64sub T a.timestamp_ms
    · rw [if_pos hc]
      exact fun hs => List.mem_cons_of_mem a (ih s hs)
    · rw [if_neg hc]
      exact fun hs => hs

theorem trimBreaths_fresh (T : ℕ) (hT : T < 2 ^ 64) :
    ∀ l : List BreathCycle, cycleSorted l → cycleBelow l T →
      ∀ c ∈ trimBreaths T l, T ≤ c.timestamp_ms + 60000 := by
  intro l
  induction l with
  | nil => intro _ _ c hc; cases hc
  | cons a rest ih =>
    intro hsort hbel
    unfold trimBreaths
    by_cases hc : 60000 < u64sub T a.timestamp_ms
    · rw [if_pos hc]
      exact ih (List.pairwise_cons.mp hsort).2
        (fun c hcm => hbel c (List.mem_cons_of_mem a hcm))
    · rw [if_neg hc]
      have ha : a.timestamp_ms ≤ T := hbel a (List.mem_cons_self a rest)
      have hub : u64sub T a.timestamp_ms = T - a.timestamp_ms :=
        u64sub_of_le ha hT
      have haw : T ≤ a.timestamp_ms + 60000 := by
        rw [hub] at hc
        omega
      intro c hcm
      rcases List.mem_cons.mp hcm with rfl | hc2
      · exact haw
      · have := (List.pairwise_cons.mp hsort).1 c hc2
        omega

theorem trimBreaths_sorted (T : ℕ) :
    ∀ l : List BreathCycle, cycleSorted l →
      cycleSorted (trimBreaths T l) := by
  intro l
  induction l with
  | nil => intro _; exact List.Pairwise.nil
  | cons a rest ih =>
    intro hsort
    unfold trimBreaths
    by_cases hc : 60000 < u64sub T a.timestamp_ms
    · rw [if_pos hc]
      exact ih (List.pairwise_cons.mp hsort).2
    · rw [if_neg hc]
      exact hsort

theorem trimBreaths_subset (T : ℕ) :
    ∀ (l : List BreathCycle) (c : BreathCycle),
      c ∈ trimBreaths T l → c ∈ l := by
  intro l
  induction l with
  | nil => intro c hc; simp [trimBreaths] at hc
  | cons a rest ih =>
    intro c
    unfold trimBreaths
    by_cases hc : 60000 < u64sub T a.timestamp_ms
    · rw [if_pos hc]
      exact fun hm => List.mem_cons_of_mem a (ih c hm)
    · rw [if_neg hc]
      exact fun hm => hm

theorem trimBreaths_cons (T : ℕ) (a : BreathCycle) (rest : List BreathCycle) :
    trimBreaths T (a :: rest)
      = if 60000 < u64sub T a.timestamp_ms then trimBreaths T rest
        else a :: rest := rfl

theorem trimBreaths_concat (c : BreathCycle) :
    ∀ l : List BreathCycle, ∃ l2,
      trimBreaths c.timestamp_ms (l ++ [c]) = l2 ++ [c] := by
  intro l
  induction l with
  | nil =>
    refine ⟨[], ?_⟩
    rw [List.nil_append, trimBreaths_cons,
      if_neg (show ¬(60000 < u64sub c.timestamp_ms c.timestamp_ms) from
        by rw [u64sub_self]; omega)]
  | cons a rest ih =>
    rw [List.cons_append, trimBreaths_cons]
    by_cases hp : 60000 < u64sub c.timestamp_ms a.timestamp_ms
    · rw [if_pos hp]
      exact ih
    · rw [if_neg hp]
      exact ⟨a :: rest, by rw [List.cons_append]⟩

theorem trimAccel_fst (T : ℕ) :
    ∀ (l : List SensorSample) (mags : List ℚ) (msum msq : ℚ),
      (trimAccel T l mags msum msq).1 = trimSamples T 5000 l := by
  intro l
  induction l with
  | nil => intro mags msum msq; rfl
  | cons a rest ih =>
    intro mags msum msq
    unfold trimAccel trimSamples
    by_cases hc : 5000 < u64sub T a.timestamp_ms
    · rw [if_pos hc, if_pos hc]
      cases mags with
      | nil => exact ih [] msum msq
      | cons m mrest => exact ih mrest (msum - m) (msq - m * m)
    · rw [if_neg hc, if_neg hc]

theorem feedAccel_breath_cases (F : RealFns) (e : RespiroEngine)
    (x y z : ℚ) (ts : ℕ) :
    (e.feedAccelerometer F x y z ts).breath_history = e.breath_history ∨
    ∃ c : BreathCycle, c.timestamp_ms = ts ∧
      (e.feedAccelerometer F x y z ts).breath_history
        = trimBreaths ts (e.breath_history ++ [c]) := by
  unfold RespiroEngine.feedAccelerometer
  dsimp only
  unfold detectBreathingPeaks
  dsimp only
  split
  · split
    · split
      · exact Or.inr ⟨_, rfl, rfl⟩
      · exact Or.inl rfl
    · exact Or.inl rfl
  · split <;> exact Or.inl rfl

/-- The sortedness / recency invariant carried across engine operations:
buffers sorted with timestamps bounded by the latest per-channel feed, and
the breath history within 60 s of its newest cycle. -/
def EngInv (e : RespiroEngine) (aT gT : ℕ) : Prop :=
  sampleSorted e.accel_buffer ∧ sampleBelow e.accel_buffer aT ∧
  sampleSorted e.gyro_buffer ∧ sampleBelow e.gyro_buffer gT ∧
  cycleSorted e.breath_history ∧ cycleBelow e.breath_history aT ∧
  cycleWithin e.breath_history

theorem engInv_init : EngInv RespiroEngine.init 0 0 := by
  have h1 : RespiroEngine.init.accel_buffer = [] := rfl
  have h2 : RespiroEngine.init.gyro_buffer = [] := rfl
  have h3 : RespiroEngine.init.breath_history = [] := rfl
  refine ⟨?_, ?_, ?_, ?_, ?_, ?_, ?_⟩ <;>
    simp [EngInv, sampleSorted, sampleBelow, cycleSorted, cycleBelow,
      cycleWithin, h1, h2, h3]

theorem appendSample_sorted {l : List SensorSample} {T aT : ℕ}
    (hs : sampleSorted l) (hb : sampleBelow l aT) (hle : aT ≤ T)
    (x y z : ℚ) :
    sampleSorted (l ++ [⟨x, y, z, T⟩]) ∧
    sampleBelow (l ++ [⟨x, y, z, T⟩]) T := by
  constructor
  · refine List.pairwise_append.mpr ⟨hs, List.pairwise_singleton _ _, ?_⟩
    intro a ha b hb2
    rw [List.mem_singleton] at hb2
    subst hb2
    exact le_trans (hb a ha) hle
  · intro s hsm
    rcases List.mem_append.mp hsm with h | h
    · exact le_trans (hb s h) hle
    · rw [List.mem_singleton] at h
      subst h
      exact le_refl _

theorem feedGyro_step (e : RespiroEngine) (aT gT : ℕ) (x y z : ℚ) (T : ℕ)
    (hI : EngInv e aT gT) (hle : gT ≤ T) (hT : T < 2 ^ 64) :
    EngInv (e.feedGyroscope x y z T) aT T ∧
    ∀ s ∈ (e.feedGyroscope x y z T).gyro_buffer,
      T ≤ s.timestamp_ms + 5000 := by
  obtain ⟨a1, a2, g1, g2, b1, b2, b3⟩ := hI
  obtain ⟨hs, hb⟩ := appendSample_sorted g1 g2 hle x y z
  have hgb : (e.feedGyroscope x y z T).gyro_buffer
      = trimSamples T 5000 (e.gyro_buffer ++ [⟨x, y, z, T⟩]) := rfl
  refine ⟨⟨a1, a2, ?_, ?_, b1, b2, b3⟩, ?_⟩
  · rw [hgb]
    exact trimSamples_sorted T 5000 _ hs
  · rw [hgb]
    intro s hsm
    exact hb s (trimSamples_subset T 5000 _ s hsm)
  · rw [hgb]
    exact trimSamples_fresh T 5000 hT _ hs hb

theorem feedAccel_step (F : RealFns) (e : RespiroEngine) (aT gT : ℕ)
    (x y z : ℚ) (T : ℕ)
    (hI : EngInv e aT gT) (hle : aT ≤ T) (hT : T < 2 ^ 64) :
    EngInv (e.feedAccelerometer F x y z T) T gT ∧
    ∀ s ∈ (e.feedAccelerometer F x y z T).accel_buffer,
      T ≤ s.timestamp_ms + 5000 := by
  obtain ⟨a1, a2, g1, g2, b1, b2, b3⟩ := hI
  obtain ⟨hs, hb⟩ := appendSample_sorted a1 a2 hle x y z
  have hab : (e.feedAccelerometer F x y z T).accel_buffer
      = trimSamples T 5000 (e.accel_buffer ++ [⟨x, y, z, T⟩]) := by
    rw [(feedAccel_buffers F e x y z T).2, trimAccel_fst]
  have hgb := (feedAccel_buffers F e x y z T).1
  have hbreath : cycleSorted (e.feedAccelerometer F x y z T).breath_history ∧
      cycleBelow (e.feedAccelerometer F x y z T).breath_history T ∧
      cycleWithin (e.feedAccelerometer F x y z T).breath_history := by
    rcases feedAccel_breath_cases F e x y z T with hsame | ⟨c, hcT, happ⟩
    · rw [hsame]
      exact ⟨b1, fun c hc => le_trans (b2 c hc) hle, b3⟩
    · have hcs : cycleSorted (e.breath_history ++ [c]) := by
        refine List.pairwise_append.mpr
          ⟨b1, List.pairwise_singleton _ _, ?_⟩
        intro p hp q hq
        rw [List.mem_singleton] at hq
        subst hq
        rw [hcT]
        exact le_trans (b2 p hp) hle
      have hcb : cycleBelow (e.breath_history ++ [c]) T := by
        intro p hp
        rcases List.mem_append.mp hp with h | h
        · exact le_trans (b2 p h) hle
        · rw [List.mem_singleton] at h
          subst h
          rw [hcT]
      rw [happ]
      refine ⟨trimBreaths_sorted T _ hcs, ?_, ?_⟩
      · exact fun p hp => hcb p (trimBreaths_subset T _ p hp)
      · obtain ⟨l2, hl2⟩ := trimBreaths_concat c (e.breath_history)
        rw [hcT] at hl2
        intro last hlast p hp
        rw [hl2] at hlast
        rw [List.getLast?_concat] at hlast
        rw [Option.mem_def, Option.some_inj] at hlast
        subst hlast
        rw [hcT]
        exact trimBreaths_fresh T hT _ hcs hcb p hp
  refine ⟨⟨?_, ?_, ?_, ?_, hbreath.1, hbreath.2.1, hbreath.2.2⟩, ?_⟩
  · rw [hab]
    exact trimSamples_sorted T 5000 _ hs
  · rw [hab]
    exact fun s hsm => hb s (trimSamples_subset T 5000 _ s hsm)
  · rw [hgb]
    exact g1
  · rw [hgb]
    exact g2
  · rw [hab]
    exact trimSamples_fresh T 5000 hT _ hs hb

theorem session_step (e : RespiroEngine) (aT gT ts : ℕ)
    (hI : EngInv e aT gT) :
    EngInv (e.startSession ts) aT gT := by
  obtain ⟨a1, a2, g1, g2, -, -, -⟩ := hI
  have hb : (e.startSession ts).breath_history = [] := rfl
  have ha : (e.startSession ts).accel_buffer = e.accel_buffer := rfl
  have hg : (e.startSession ts).gyro_buffer = e.gyro_buffer := rfl
  refine ⟨?_, ?_, ?_, ?_, ?_, ?_, ?_⟩
  · rw [ha]; exact a1
  · rw [ha]; exact a2
  · rw [hg]; exact g1
  · rw [hg]; exact g2
  · rw [hb]; exact List.Pairwise.nil
  · rw [hb]; intro c hc; simp at hc
  · rw [hb]; intro last hlast; simp at hlast

/-- The accel timestamps of an operation list are non-decreasing from the
given bound and within u64 range. -/
def AccOK : ℕ → List Op → Prop
  | _, [] => True
  | aT, Op.feedAccel _ _ _ t :: rest => aT ≤ t ∧ t < 2 ^ 64 ∧ AccOK t rest
  | aT, _ :: rest => AccOK aT rest

/-- The gyro timestamps of an operation list are non-decreasing from the
given bound and within u64 range. -/
def GyrOK : ℕ → List Op → Prop
  | _, [] => True
  | gT, Op.feedGyro _ _ _ t :: rest => gT ≤ t ∧ t < 2 ^ 64 ∧ GyrOK t rest
  | gT, _ :: rest => GyrOK gT rest

/-- The last accel timestamp of an operation list (with default). -/
def lastAccTs : ℕ → List Op → ℕ
  | aT, [] => aT
  | _, Op.feedAccel _ _ _ t :: rest => lastAccTs t rest
  | aT, _ :: rest => lastAccTs aT rest

/-- The last gyro timestamp of an operation list (with default). -/
def lastGyrTs : ℕ → List Op → ℕ
  | gT, [] => gT
  | _, Op.feedGyro _ _ _ t :: rest => lastGyrTs t rest
  | gT, _ :: rest => lastGyrTs gT rest

theorem runOps_inv (F : RealFns) :
    ∀ (ops : List Op) (e : RespiroEngine) (aT gT : ℕ),
      EngInv e aT gT → AccOK aT ops → GyrOK gT ops →
      EngInv (runOps F e ops) (lastAccTs aT ops) (lastGyrTs gT ops) := by
  intro ops
  induction ops with
  | nil => exact fun e aT gT hI _ _ => hI
  | cons op rest ih =>
    intro e aT gT hI hA hG
    cases op with
    | feedGyro x y z t =>
      obtain ⟨h1, h2, h3⟩ := hG
      exact ih _ aT t
        (feedGyro_step e aT gT x y z t hI h1 h2).1 hA h3
    | feedAccel x y z t =>
      obtain ⟨h1, h2, h3⟩ := hA
      exact ih _ t gT
        (feedAccel_step F e aT gT x y z t hI h1 h2).1 h3 hG
    | session ts =>
      exact ih _ aT gT (session_step e aT gT ts hI) hA hG

theorem runOps_append (F : RealFns) :
    ∀ (l1 l2 : List Op) (e : RespiroEngine),
      runOps F e (l1 ++ l2) = runOps F (runOps F e l1) l2 := by
  intro l1
  induction l1 with
  | nil => exact fun l2 e => rfl
  | cons op rest ih =>
    intro l2 e
    rw [List.cons_append, runOps_cons, runOps_cons]
    exact ih l2 _

theorem AccOK_append_acc :
    ∀ (l : List Op) (aT : ℕ) (x y z : ℚ) (T : ℕ),
      AccOK aT (l ++ [Op.feedAccel x y z T]) →
      AccOK aT l ∧ lastAccTs aT l ≤ T ∧ T < 2 ^ 64 := by
  intro l
  induction l with
  | nil => exact fun aT x y z T h => ⟨trivial, h.1, h.2.1⟩
  | cons op rest ih =>
    intro aT x y z T h
    cases op with
    | feedAccel a b c t =>
      obtain ⟨h1, h2, h3⟩ := h
      obtain ⟨r1, r2, r3⟩ := ih t x y z T h3
      exact ⟨⟨h1, h2, r1⟩, r2, r3⟩
    | feedGyro a b c t => exact ih aT x y z T h
    | session t => exact ih aT x y z T h

theorem GyrOK_append_acc :
    ∀ (l : List Op) (gT : ℕ) (x y z : ℚ) (T : ℕ),
      GyrOK gT (l ++ [Op.feedAccel x y z T]) → GyrOK gT l := by
  intro l
  induction l with
  | nil => exact fun _ _ _ _ _ _ => trivial
  | cons op rest ih =>
    intro gT x y z T h
    cases op with
    | feedGyro a b c t =>
      obtain ⟨h1, h2, h3⟩ := h
      exact ⟨h1, h2, ih t x y z T h3⟩
    | feedAccel a b c t => exact ih gT x y z T h
    | session t => exact ih gT x y z T h

theorem GyrOK_append_gyr :
    ∀ (l : List Op) (gT : ℕ) (x y z : ℚ) (T : ℕ),
      GyrOK gT (l ++ [Op.feedGyro x y z T]) →
      GyrOK gT l ∧ lastGyrTs gT l ≤ T ∧ T < 2 ^ 64 := by
  intro l
  induction l with
  | nil => exact fun gT x y z T h => ⟨trivial, h.1, h.2.1⟩
  | cons op rest ih =>
    intro gT x y z T h
    cases op with
    | feedGyro a b c t =>
      obtain ⟨h1, h2, h3⟩ := h
      obtain ⟨r1, r2, r3⟩ := ih t x y z T h3
      exact ⟨⟨h1, h2, r1⟩, r2, r3⟩
    | feedAccel a b c t => exact ih gT x y z T h
    | session t => exact ih gT x y z T h

theorem AccOK_append_gyr :
    ∀ (l : List Op) (aT : ℕ) (x y z : ℚ) (T : ℕ),
      AccOK aT (l ++ [Op.feedGyro x y z T]) → AccOK aT l := by
  intro l
  induction l with
  | nil => exact fun _ _ _ _ _ _ => trivial
  | cons op rest ih =>
    intro aT x y z T h
    cases op with
    | feedAccel a b c t =>
      obtain ⟨h1, h2, h3⟩ := h
      exact ⟨h1, h2, ih t x y z T h3⟩
    | feedGyro a b c t => exact ih aT x y z T h
    | session t => exact ih aT x y z T h

/-- Claim C3 (amended): trimming is per channel, for streams whose per-channel
timestamps are non-decreasing (as §3 stipulates): immediately after an accel
ingest at T every retained accel sample has timestamp at least T - 5000;
immediately after a gyro ingest at T every retained gyro sample has
timestamp at least T - 5000; and in every reachable state each retained
breath cycle lies within 60000 ms of the newest cycle (trimming happens only
when a cycle is appended, against the appended cycle's timestamp). -/
theorem trimming_per_channel :
    (∀ (F : RealFns) (ops : List Op) (x y z : ℚ) (T : ℕ),
      AccOK 0 (ops ++ [Op.feedAccel x y z T]) →
      GyrOK 0 (ops ++ [Op.feedAccel x y z T]) →
      ∀ s ∈ (runOps F RespiroEngine.init
          (ops ++ [Op.feedAccel x y z T])).accel_buffer,
        T ≤ s.timestamp_ms + 5000) ∧
    (∀ (F : RealFns) (ops : List Op) (x y z : ℚ) (T : ℕ),
      AccOK 0 (ops ++ [Op.feedGyro x y z T]) →
      GyrOK 0 (ops ++ [Op.feedGyro x y z T]) →
      ∀ s ∈ (runOps F RespiroEngine.init
          (ops ++ [Op.feedGyro x y z T])).gyro_buffer,
        T ≤ s.timestamp_ms + 5000) ∧
    (∀ (F : RealFns) (ops : List Op),
      AccOK 0 ops → GyrOK 0 ops →
      ∀ last ∈ (runOps F RespiroEngine.init ops).breath_history.getLast?,
        ∀ c ∈ (runOps F RespiroEngine.init ops).breath_history,
          last.timestamp_ms ≤ c.timestamp_ms + 60000) := by
  refine ⟨?_, ?_, ?_⟩
  · intro F ops x y z T hA hG
    obtain ⟨hA1, hle, hT⟩ := AccOK_append_acc ops 0 x y z T hA
    have hG1 := GyrOK_append_acc ops 0 x y z T hG
    have hInv := runOps_inv F ops RespiroEngine.init 0 0 engInv_init hA1 hG1
    rw [runOps_append]
    exact (feedAccel_step F (runOps F RespiroEngine.init ops)
      (lastAccTs 0 ops) (lastGyrTs 0 ops) x y z T hInv hle hT).2
  · intro F ops x y z T hA hG
    obtain ⟨hG1, hle, hT⟩ := GyrOK_append_gyr ops 0 x y z T hG
    have hA1 := AccOK_append_gyr ops 0 x y z T hA
    have hInv := runOps_inv F ops RespiroEngine.init 0 0 engInv_init hA1 hG1
    rw [runOps_append]
    exact (feedGyro_step (runOps F RespiroEngine.init ops)
      (lastAccTs 0 ops) (lastGyrTs 0 ops) x y z T hInv hle hT).2
  · intro F ops hA hG
    exact (runOps_inv F ops RespiroEngine.init 0 0
      engInv_init hA hG).2.2.2.2.2.2

/-- Witness for trimming_per_channel: a single accel ingest at 1000 ms
retains its own sample, which satisfies the 5-second recency bound. -/
theorem trimming_per_channel_witness :
    AccOK 0 ([] ++ [Op.feedAccel 0 0 1 1000]) ∧
    GyrOK 0 ([] ++ [Op.feedAccel 0 0 1 1000]) ∧
    (⟨0, 0, 1, 1000⟩ : SensorSample) ∈ (runOps zeroFns RespiroEngine.init
      ([] ++ [Op.feedAccel 0 0 1 1000])).accel_buffer ∧
    1000 ≤ (⟨0, 0, 1, 1000⟩ : SensorSample).timestamp_ms + 5000 := by
  have hA : AccOK 0 ([] ++ [Op.feedAccel 0 0 1 1000]) :=
    ⟨Nat.zero_le 1000, by norm_num, trivial⟩
  have hG : GyrOK 0 ([] ++ [Op.feedAccel 0 0 1 1000]) := trivial
  have hmem : (⟨0, 0, 1, 1000⟩ : SensorSample) ∈
      (runOps zeroFns RespiroEngine.init
        ([] ++ [Op.feedAccel 0 0 1 1000])).accel_buffer := by
    have hb : (runOps zeroFns RespiroEngine.init
        ([] ++ [Op.feedAccel 0 0 1 1000])).accel_buffer
        = (RespiroEngine.init.feedAccelerometer zeroFns 0 0 1
            1000).accel_buffer := rfl
    rw [hb, (feedAccel_buffers zeroFns RespiroEngine.init 0 0 1 1000).2,
      trimAccel_fst]
    rw [show RespiroEngine.init.accel_buffer = [] from rfl, List.nil_append]
    rw [show trimSamples 1000 5000 [(⟨0, 0, 1, 1000⟩ : SensorSample)]
      = [⟨0, 0, 1, 1000⟩] from by decide]
    exact List.mem_singleton.mpr rfl
  exact ⟨hA, hG, hmem,
    trimming_per_channel.1 zeroFns [] 0 0 1 1000 hA hG _ hmem⟩

/-- Counterexample to claim C3 as stated: a gyro sample fed at 0 ms is still
retained after an accel ingest at 10000 ms, although its timestamp is older
than 10000 - 5000: accel ingestion does not trim the gyro window. -/
theorem gyro_not_trimmed_on_accel_cex :
    (runOps zeroFns RespiroEngine.init
      [Op.feedGyro 1 1 1 0, Op.feedAccel 0 0 1 10000]).gyro_buffer
      = [⟨1, 1, 1, 0⟩] ∧
    (⟨1, 1, 1, 0⟩ : SensorSample).timestamp_ms + 5000 < 10000 := by
  constructor
  · have h1 : runOps zeroFns RespiroEngine.init
        [Op.feedGyro 1 1 1 0, Op.feedAccel 0 0 1 10000]
        = (RespiroEngine.init.feedGyroscope 1 1 1 0).feedAccelerometer
            zeroFns 0 0 1 10000 := rfl
    rw [h1, (feedAccel_buffers zeroFns _ 0 0 1 10000).1]
    decide
  · norm_num

end RespiroSync
